import Mathlib

/-!
Verification of the human-governance layer of the Healthcare Assistant
repository: the approval chain (`src/human_intervention/approval_manager.py`),
the intervention manager (`src/human_intervention/main.py`), the review
handler (`src/human_intervention/review_handler.py`) and the stage
orchestrator (`src/agents/agno_orchestrator.py`).

Modelling conventions:
- Python dicts used as records become Lean structures; a field that may hold
  Python `None` becomes an `Option`.
- Status strings are kept as `String` values, exactly as in the source.
- Wall-clock timestamps (`datetime.now().isoformat()`) are modelled by an
  explicit `now : Nat` parameter threaded into each operation that stamps a
  time; operations that stamp times the claims never read omit the stamp.
- Python exceptions are modelled with `Except String`; functions that cannot
  raise are plain functions.
- Confidence scores and thresholds (Python floats compared with `<` only,
  never combined arithmetically) are modelled as `Rat`.
-/

namespace Healthcare

/-! ### Approval manager (`src/human_intervention/approval_manager.py`) -/

/-- One entry of an approval request's `approvals` list. -/
structure ApprovalEntry where
  level : String
  approver : String
  notes : String
  deriving Repr, DecidableEq

/-- One entry of an approval request's `rejections` list. -/
structure RejectionEntry where
  level : String
  rejector : String
  reason : String
  deriving Repr, DecidableEq

/-- The record stored in `ApprovalManager.approvals` (timestamps
`created_at` / `final_decision_at`, read by no claim, are omitted). -/
structure Approval where
  assessment_id : String
  required_level : String
  status : String
  approvals : List ApprovalEntry
  rejections : List RejectionEntry
  final_decision : Option String
  deriving Repr, DecidableEq

/-- `self.approval_chain = ["physician", "supervisor", "director"]`. -/
def approval_chain : List String := ["physician", "supervisor", "director"]

/-- `self.approval_chain.index(required_level) if required_level in
self.approval_chain else 0` (from `_check_all_approvals`). -/
def requiredIndex (required_level : String) : Nat :=
  if required_level ∈ approval_chain then approval_chain.indexOf required_level else 0

/-- The record built by `ApprovalManager.create_approval_request`
(`assessment_data` payload omitted: opaque, read by no claim). -/
def create_approval_request (assessment_id required_level : String) : Approval :=
  { assessment_id := assessment_id
    required_level := required_level
    status := "pending"
    approvals := []
    rejections := []
    final_decision := none }

/-- `ApprovalManager._check_all_approvals`: returns `False` iff some
`i ≤ required_index` has `i < len(chain)` and `chain[i]` not among the
levels of the `approvals` entries. -/
def Approval.check_all_approvals (a : Approval) : Bool :=
  let required_index := requiredIndex a.required_level
  let approved_levels := a.approvals.map (fun e => e.level)
  (List.range (required_index + 1)).all fun i =>
    !(decide (i < approval_chain.length) && !(decide (approval_chain.getD i "" ∈ approved_levels)))

/-- `ApprovalManager.approve_at_level`, found-id path: append the entry,
then recompute status from `_check_all_approvals`. -/
def Approval.approve_at_level (a : Approval) (level approver notes : String) : Approval :=
  let a1 : Approval := { a with approvals := a.approvals ++ [⟨level, approver, notes⟩] }
  if a1.check_all_approvals then
    { a1 with status := "fully_approved", final_decision := some "approved" }
  else
    { a1 with status := "partially_approved" }

/-- `ApprovalManager.reject_at_level`, found-id path. -/
def Approval.reject_at_level (a : Approval) (level rejector reason : String) : Approval :=
  { a with
    rejections := a.rejections ++ [⟨level, rejector, reason⟩]
    status := "rejected"
    final_decision := some "rejected" }

/-- The per-record condition tested by `ApprovalManager.can_proceed`. -/
def Approval.can_proceed (a : Approval) : Bool :=
  a.status == "fully_approved" && a.final_decision == some "approved"

/-- The `ApprovalManager` store (`self.approvals`), as an association list. -/
structure ApprovalManager where
  approvals : List (String × Approval)
  deriving Repr, DecidableEq

/-- `ApprovalManager.can_proceed`: `False` for an unknown id, else the
status/final-decision test on the stored record. -/
def ApprovalManager.can_proceed (m : ApprovalManager) (approval_id : String) : Bool :=
  match m.approvals.lookup approval_id with
  | none => false
  | some a => a.can_proceed

/-- One `approve_at_level` call (the id is fixed by the scenario). -/
structure ApproveCall where
  level : String
  approver : String
  notes : String
  deriving Repr, DecidableEq

/-- A sequence of `approve_at_level` calls applied to one approval record. -/
def applyApproves (a : Approval) (calls : List ApproveCall) : Approval :=
  calls.foldl (fun acc c => acc.approve_at_level c.level c.approver c.notes) a

/-- The spec-side chain-completeness condition: every chain level at index
`0..k` (`k` = required index) appears among the given approval levels. -/
def chainCovered (required_level : String) (levels : List String) : Prop :=
  ∀ i, i ≤ requiredIndex required_level → i < approval_chain.length →
    approval_chain.getD i "" ∈ levels

/-! #### Lemmas about the approval chain -/

theorem check_all_approvals_iff (a : Approval) :
    a.check_all_approvals = true ↔
      chainCovered a.required_level (a.approvals.map (fun e => e.level)) := by
  unfold Approval.check_all_approvals chainCovered
  rw [List.all_eq_true]
  constructor
  · intro h i hle hlt
    have hmem : i ∈ List.range (requiredIndex a.required_level + 1) :=
      List.mem_range.mpr (Nat.lt_succ_of_le hle)
    have := h i hmem
    simpa [hlt] using this
  · intro h i hi
    have hle : i ≤ requiredIndex a.required_level :=
      Nat.lt_succ_iff.mp (List.mem_range.mp hi)
    by_cases hlt : i < approval_chain.length
    · simpa [hlt] using h i hle hlt
    · simp [hlt]

theorem chainCovered_mono {rl : String} {l1 l2 : List String}
    (hsub : ∀ x, x ∈ l1 → x ∈ l2) (h : chainCovered rl l1) : chainCovered rl l2 :=
  fun i h1 h2 => hsub _ (h i h1 h2)

theorem check_all_approvals_congr (a b : Approval)
    (h1 : a.required_level = b.required_level) (h2 : a.approvals = b.approvals) :
    a.check_all_approvals = b.check_all_approvals := by
  unfold Approval.check_all_approvals
  rw [h1, h2]

theorem check_all_approvals_empty (a : Approval) (h : a.approvals = []) :
    a.check_all_approvals = false := by
  rw [Bool.eq_false_iff]
  intro hall
  rw [check_all_approvals_iff] at hall
  have := hall 0 (Nat.zero_le _) (by simp [approval_chain])
  simp [h] at this

theorem check_all_approvals_mono (a b : Approval)
    (hrl : a.required_level = b.required_level)
    (hsub : ∀ x, x ∈ a.approvals.map (fun e => e.level) →
      x ∈ b.approvals.map (fun e => e.level))
    (h : a.check_all_approvals = true) : b.check_all_approvals = true := by
  rw [check_all_approvals_iff] at h ⊢
  rw [← hrl]
  exact chainCovered_mono hsub h

theorem approve_at_level_required_level (a : Approval) (l ap n : String) :
    (a.approve_at_level l ap n).required_level = a.required_level := by
  unfold Approval.approve_at_level
  dsimp only
  split <;> rfl

theorem approve_at_level_approvals (a : Approval) (l ap n : String) :
    (a.approve_at_level l ap n).approvals = a.approvals ++ [⟨l, ap, n⟩] := by
  unfold Approval.approve_at_level
  dsimp only
  split <;> rfl

/-- Invariant holding for every approval record reachable from creation by
`approve_at_level` calls only. -/
def ApprovedInv (a : Approval) : Prop :=
  (a.status = "fully_approved" ∧ a.final_decision = some "approved"
      ∧ a.check_all_approvals = true)
  ∨ (((a.status = "pending" ∧ a.approvals = []) ∨ a.status = "partially_approved")
      ∧ a.final_decision = none ∧ a.check_all_approvals = false)

theorem approve_at_level_inv (a : Approval) (c : ApproveCall) (h : ApprovedInv a) :
    ApprovedInv (a.approve_at_level c.level c.approver c.notes) := by
  have hrl := approve_at_level_required_level a c.level c.approver c.notes
  have happ := approve_at_level_approvals a c.level c.approver c.notes
  set a1 : Approval := { a with approvals := a.approvals ++ [⟨c.level, c.approver, c.notes⟩] } with ha1
  have hchk : (a.approve_at_level c.level c.approver c.notes).check_all_approvals
      = a1.check_all_approvals := by
    apply check_all_approvals_congr
    · rw [hrl]
    · rw [happ]
  by_cases hc : a1.check_all_approvals = true
  · left
    have : a.approve_at_level c.level c.approver c.notes =
        { a1 with status := "fully_approved", final_decision := some "approved" } := by
      unfold Approval.approve_at_level
      rw [← ha1, if_pos hc]
    rw [this]
    refine ⟨rfl, rfl, ?_⟩
    rw [← this, hchk]
    exact hc
  · right
    have hc' : a1.check_all_approvals = false := Bool.eq_false_iff.mpr hc
    have heq : a.approve_at_level c.level c.approver c.notes =
        { a1 with status := "partially_approved" } := by
      unfold Approval.approve_at_level
      rw [← ha1, if_neg hc]
    have hdec : a.final_decision = none := by
      rcases h with ⟨_, _, hchka⟩ | ⟨_, hdec, _⟩
      · exfalso
        apply hc
        apply check_all_approvals_mono a a1 rfl _ hchka
        intro x hx
        simp only [ha1, List.map_append]
        exact List.mem_append_left _ hx
      · exact hdec
    rw [heq]
    exact ⟨Or.inr rfl, hdec, by rw [← heq, hchk]; exact hc'⟩

theorem applyApproves_inv (calls : List ApproveCall) (a : Approval)
    (h : ApprovedInv a) : ApprovedInv (applyApproves a calls) := by
  induction calls generalizing a with
  | nil => exact h
  | cons c cs ih =>
    simp only [applyApproves, List.foldl_cons]
    exact ih _ (approve_at_level_inv a c h)

theorem applyApproves_required_level (calls : List ApproveCall) (a : Approval) :
    (applyApproves a calls).required_level = a.required_level := by
  induction calls generalizing a with
  | nil => rfl
  | cons c cs ih =>
    simp only [applyApproves, List.foldl_cons]
    rw [show List.foldl (fun acc c => acc.approve_at_level c.level c.approver c.notes)
          (a.approve_at_level c.level c.approver c.notes) cs
        = applyApproves (a.approve_at_level c.level c.approver c.notes) cs from rfl]
    rw [ih, approve_at_level_required_level]

/-- The `ApprovalEntry` produced by one `approve_at_level` call. -/
def ApproveCall.entry (c : ApproveCall) : ApprovalEntry :=
  ⟨c.level, c.approver, c.notes⟩

theorem applyApproves_approvals (calls : List ApproveCall) (a : Approval) :
    (applyApproves a calls).approvals = a.approvals ++ calls.map ApproveCall.entry := by
  induction calls generalizing a with
  | nil => simp [applyApproves]
  | cons c cs ih =>
    simp only [applyApproves, List.foldl_cons]
    rw [show List.foldl (fun acc c => acc.approve_at_level c.level c.approver c.notes)
          (a.approve_at_level c.level c.approver c.notes) cs
        = applyApproves (a.approve_at_level c.level c.approver c.notes) cs from rfl]
    rw [ih, approve_at_level_approvals]
    simp [ApproveCall.entry]

theorem create_inv (aid rl : String) : ApprovedInv (create_approval_request aid rl) := by
  right
  refine ⟨Or.inl ⟨rfl, rfl⟩, rfl, check_all_approvals_empty _ rfl⟩

/-- The conjunction claimed by C1: `can_proceed` is the status/final-decision
test on the stored record, and a fresh request driven by `approve_at_level`
calls alone ends `fully_approved` exactly when the arrived levels cover chain
indices `0..k`, else `partially_approved`. -/
def C1Prop (m : ApprovalManager) (approval_id aid rl : String)
    (calls : List ApproveCall) : Prop :=
  (m.can_proceed approval_id = true ↔
      ∃ a, m.approvals.lookup approval_id = some a ∧
        a.status = "fully_approved" ∧ a.final_decision = some "approved")
  ∧ ((applyApproves (create_approval_request aid rl) calls).status = "fully_approved"
      ↔ chainCovered rl (calls.map (fun c => c.level)))
  ∧ ((applyApproves (create_approval_request aid rl) calls).status ≠ "fully_approved"
      → (applyApproves (create_approval_request aid rl) calls).status = "partially_approved")
  ∧ ((applyApproves (create_approval_request aid rl) calls).can_proceed = true
      ↔ chainCovered rl (calls.map (fun c => c.level)))

/-- C1: for every approval request, `canProceed` is true iff the stored
status is `fully_approved` and the final decision is `approved`; and after any
non-empty sequence of `approve_at_level` calls the status is `fully_approved`
iff every chain level at index `0..k` (`k` the required index) appears among
the arrived approval levels — order of arrival irrelevant — and
`partially_approved` otherwise. -/
theorem C1_chain_completeness (m : ApprovalManager) (approval_id aid rl : String)
    (calls : List ApproveCall) (hne : calls ≠ []) :
    C1Prop m approval_id aid rl calls := by
  unfold C1Prop
  refine ⟨?_, ?_⟩
  · unfold ApprovalManager.can_proceed
    cases h : m.approvals.lookup approval_id with
    | none => simp
    | some a =>
      simp only [h, Option.some.injEq]
      unfold Approval.can_proceed
      constructor
      · intro hb
        rw [Bool.and_eq_true, beq_iff_eq, beq_iff_eq] at hb
        exact ⟨a, rfl, hb.1, hb.2⟩
      · rintro ⟨b, rfl, h1, h2⟩
        rw [Bool.and_eq_true, beq_iff_eq, beq_iff_eq]
        exact ⟨h1, h2⟩
  · have hinv : ApprovedInv (applyApproves (create_approval_request aid rl) calls) :=
      applyApproves_inv calls _ (create_inv aid rl)
    have hrl : (applyApproves (create_approval_request aid rl) calls).required_level = rl :=
      applyApproves_required_level calls _
    have happ : (applyApproves (create_approval_request aid rl) calls).approvals
        = calls.map ApproveCall.entry := by
      rw [applyApproves_approvals]
      rfl
    have hlv : (applyApproves (create_approval_request aid rl) calls).approvals.map
          (fun e => e.level) = calls.map (fun c => c.level) := by
      rw [happ, List.map_map]
      rfl
    have hiff : (applyApproves (create_approval_request aid rl) calls).check_all_approvals
        = true ↔ chainCovered rl (calls.map (fun c => c.level)) := by
      rw [check_all_approvals_iff, hrl, hlv]
    have hne' : (applyApproves (create_approval_request aid rl) calls).approvals ≠ [] := by
      rw [happ]
      simpa using hne
    rcases hinv with ⟨hs, hd, hc⟩ | ⟨hsor, hd, hc⟩
    · refine ⟨?_, ?_, ?_⟩
      · rw [hs]
        simp only [true_iff]
        exact hiff.mp hc
      · intro hcontra
        exact absurd hs hcontra
      · unfold Approval.can_proceed
        rw [hs, hd]
        simpa using hiff.mp hc
    · have hstat : (applyApproves (create_approval_request aid rl) calls).status
          = "partially_approved" := by
        rcases hsor with ⟨_, hemp⟩ | hp
        · exact absurd hemp hne'
        · exact hp
      refine ⟨?_, fun _ => hstat, ?_⟩
      · rw [hstat]
        constructor
        · intro hcontra
          exact absurd hcontra (by decide)
        · intro hcov
          have := hiff.mpr hcov
          rw [hc] at this
          exact absurd this (by decide)
      · unfold Approval.can_proceed
        rw [hstat, hd]
        constructor
        · intro hcontra
          simp at hcontra
        · intro hcov
          have := hiff.mpr hcov
          rw [hc] at this
          exact absurd this (by decide)

/-- Witness for C1 at a concrete input: required level `supervisor`, approvals
arriving as [physician, supervisor]. -/
theorem C1_chain_completeness_witness :
    (([⟨"physician", "Dr. P", ""⟩, ⟨"supervisor", "Dr. S", ""⟩] : List ApproveCall) ≠ [])
    ∧ C1Prop ⟨[]⟩ "APR-000001" "ASSESS-1" "supervisor"
        [⟨"physician", "Dr. P", ""⟩, ⟨"supervisor", "Dr. S", ""⟩] :=
  ⟨by decide,
   C1_chain_completeness ⟨[]⟩ "APR-000001" "ASSESS-1" "supervisor"
     [⟨"physician", "Dr. P", ""⟩, ⟨"supervisor", "Dr. S", ""⟩] (by decide)⟩

/-- C2 fails on the code: rejecting at `physician` marks the request
`rejected`, but a subsequent `approve_at_level` at `physician` recomputes the
status from the approvals list alone (`_check_all_approvals` never consults
`rejections`), flipping the request to `fully_approved` / `approved`, and
`can_proceed` returns true again. -/
theorem C2_rejection_reversed_by_later_approval :
    ((create_approval_request "ASSESS-1" "physician").reject_at_level
        "physician" "Dr. R" "unsafe").status = "rejected"
    ∧ ((create_approval_request "ASSESS-1" "physician").reject_at_level
        "physician" "Dr. R" "unsafe").final_decision = some "rejected"
    ∧ (((create_approval_request "ASSESS-1" "physician").reject_at_level
        "physician" "Dr. R" "unsafe").approve_at_level "physician" "Dr. A" "").status
        = "fully_approved"
    ∧ (((create_approval_request "ASSESS-1" "physician").reject_at_level
        "physician" "Dr. R" "unsafe").approve_at_level "physician" "Dr. A" "").final_decision
        = some "approved"
    ∧ (((create_approval_request "ASSESS-1" "physician").reject_at_level
        "physician" "Dr. R" "unsafe").approve_at_level "physician" "Dr. A" "").can_proceed
        = true := by
  decide

/-- C9: an unrecognised `required_level` defaults the required index to 0, so
a single approval at the first chain level (`physician`) already makes the
request `fully_approved` and lets it proceed. -/
theorem C9_unknown_required_level (aid rl approver notes : String)
    (h : rl ∉ approval_chain) :
    requiredIndex rl = 0
    ∧ ((create_approval_request aid rl).approve_at_level "physician" approver notes).status
        = "fully_approved"
    ∧ ((create_approval_request aid rl).approve_at_level "physician" approver notes).can_proceed
        = true := by
  have h0 : requiredIndex rl = 0 := by
    unfold requiredIndex
    rw [if_neg h]
  have key : ∀ b : Approval, b.required_level = rl →
      b.approvals.map (fun e => e.level) = ["physician"] →
      b.check_all_approvals = true := by
    intro b h1 h2
    rw [check_all_approvals_iff, h1, h2]
    intro i hle hlt
    rw [h0, Nat.le_zero] at hle
    subst hle
    simp [approval_chain]
  have hchk : (Approval.mk aid rl "pending" [⟨"physician", approver, notes⟩] [] none).check_all_approvals = true :=
    key _ rfl rfl
  refine ⟨h0, ?_, ?_⟩
  · simp only [create_approval_request, Approval.approve_at_level, List.nil_append]
    rw [if_pos hchk]
  · simp only [create_approval_request, Approval.approve_at_level, List.nil_append]
    rw [if_pos hchk]
    rfl

/-- Witness for C9 at the concrete unknown level `"ceo"`. -/
theorem C9_unknown_required_level_witness :
    ("ceo" ∉ approval_chain)
    ∧ (requiredIndex "ceo" = 0
      ∧ ((create_approval_request "ASSESS-1" "ceo").approve_at_level
          "physician" "Dr. P" "").status = "fully_approved"
      ∧ ((create_approval_request "ASSESS-1" "ceo").approve_at_level
          "physician" "Dr. P" "").can_proceed = true) :=
  ⟨by decide, C9_unknown_required_level "ASSESS-1" "ceo" "Dr. P" "" (by decide)⟩

/-! ### Intervention manager (`src/human_intervention/main.py`) -/

/-- One entry of an intervention request's `comments` list. -/
structure InterventionComment where
  text : String
  reviewer : String
  timestamp : Nat
  deriving Repr, DecidableEq

/-- The record stored in `HumanInterventionManager.interventions`. The Python
`type` key is called `itype`; enum members (`InterventionType`,
`InterventionStatus`) are represented by their `.value` strings; the opaque
`assessment_data` payload, read by no claim, is omitted. -/
structure Intervention where
  assessment_id : String
  itype : String
  status : String
  priority : String
  reason : String
  created_at : Nat
  assigned_to : Option String
  comments : List InterventionComment
  decision : Option String
  resolved_at : Option Nat
  deriving Repr, DecidableEq

/-- `HumanInterventionManager.assign_intervention`, found-id path. -/
def Intervention.assign_intervention (r : Intervention) (assigned_to : String) : Intervention :=
  { r with assigned_to := some assigned_to, status := "in_progress" }

/-- `HumanInterventionManager.add_comment`, found-id path. -/
def Intervention.add_comment (r : Intervention) (comment reviewer : String) (now : Nat) :
    Intervention :=
  { r with comments := r.comments ++ [⟨comment, reviewer, now⟩] }

/-- `HumanInterventionManager.approve_assessment`, found-id path: set the
terminal fields, then append an approval-notes comment when `notes` is a
truthy (non-empty) string. -/
def Intervention.approve_assessment (r : Intervention) (reviewer notes : String) (now : Nat) :
    Intervention :=
  let r1 : Intervention :=
    { r with status := "approved", decision := some "approved", resolved_at := some now }
  if notes ≠ "" then r1.add_comment ("Approval notes: " ++ notes) reviewer now else r1

/-- `HumanInterventionManager.reject_assessment`, found-id path. -/
def Intervention.reject_assessment (r : Intervention) (reviewer reason : String) (now : Nat) :
    Intervention :=
  (({ r with status := "rejected", decision := some "rejected", resolved_at := some now }
    : Intervention)).add_comment ("Rejection reason: " ++ reason) reviewer now

/-- `HumanInterventionManager.escalate_intervention`, found-id path. -/
def Intervention.escalate_intervention (r : Intervention) (escalation_reason : String)
    (now : Nat) : Intervention :=
  (({ r with status := "escalated", priority := "urgent" } : Intervention)).add_comment
    ("Escalated: " ++ escalation_reason) "SYSTEM" now

/-- The `HumanInterventionManager` store and counter, as an association list
plus `intervention_counter`. -/
structure HumanInterventionManager where
  interventions : List (String × Intervention)
  intervention_counter : Nat
  deriving Repr, DecidableEq

/-- Python `f"{n:06d}"` zero-padding used in generated request ids. -/
def pad6 (n : Nat) : String :=
  let s := toString n
  String.mk (List.replicate (6 - s.length) '0') ++ s

/-- `HumanInterventionManager.create_intervention_request` (the opaque
`assessment_data` argument is omitted). -/
def HumanInterventionManager.create_intervention_request
    (m : HumanInterventionManager) (assessment_id intervention_type reason priority : String)
    (now : Nat) : String × HumanInterventionManager :=
  let counter := m.intervention_counter + 1
  let request_id := "INT-" ++ pad6 counter
  let r : Intervention :=
    { assessment_id := assessment_id, itype := intervention_type, status := "pending",
      priority := priority, reason := reason, created_at := now, assigned_to := none,
      comments := [], decision := none, resolved_at := none }
  (request_id,
   { interventions := m.interventions ++ [(request_id, r)], intervention_counter := counter })

/-- The reason string of `flag_low_confidence_assessment` interpolates the two
scores with percent formatting; no claim reads it, so the text is abstracted
to a constant. -/
def low_confidence_reason : String := "Low confidence assessment"

/-- `HumanInterventionManager.flag_low_confidence_assessment` (the source
defaults `threshold` to `0.6`; it is passed explicitly here): create a
review-type, normal-priority request when `confidence_score < threshold`,
return `None` otherwise. -/
def HumanInterventionManager.flag_low_confidence_assessment
    (m : HumanInterventionManager) (assessment_id : String)
    (confidence_score threshold : Rat) (now : Nat) :
    Option String × HumanInterventionManager :=
  if confidence_score < threshold then
    let res := m.create_intervention_request assessment_id "review" low_confidence_reason
      "normal" now
    (some res.1, res.2)
  else
    (none, m)

/-- Python dict write `self.interventions[request_id] = r` for an existing key. -/
def updateStore (store : List (String × Intervention)) (request_id : String)
    (r : Intervention) : List (String × Intervention) :=
  store.map (fun p => if p.1 == request_id then (p.1, r) else p)

/-- `HumanInterventionManager.assign_intervention`. -/
def HumanInterventionManager.assign_intervention (m : HumanInterventionManager)
    (request_id assigned_to : String) : Bool × HumanInterventionManager :=
  match m.interventions.lookup request_id with
  | none => (false, m)
  | some r =>
    let r1 := r.assign_intervention assigned_to
    (true, { m with interventions := updateStore m.interventions request_id r1 })

/-- `HumanInterventionManager.add_comment`. -/
def HumanInterventionManager.add_comment (m : HumanInterventionManager)
    (request_id comment reviewer : String) (now : Nat) : Bool × HumanInterventionManager :=
  match m.interventions.lookup request_id with
  | none => (false, m)
  | some r =>
    let r1 := r.add_comment comment reviewer now
    (true, { m with interventions := updateStore m.interventions request_id r1 })

/-- `HumanInterventionManager.approve_assessment`. -/
def HumanInterventionManager.approve_assessment (m : HumanInterventionManager)
    (request_id reviewer notes : String) (now : Nat) : Bool × HumanInterventionManager :=
  match m.interventions.lookup request_id with
  | none => (false, m)
  | some r =>
    let r1 := r.approve_assessment reviewer notes now
    (true, { m with interventions := updateStore m.interventions request_id r1 })

/-- `HumanInterventionManager.reject_assessment`. -/
def HumanInterventionManager.reject_assessment (m : HumanInterventionManager)
    (request_id reviewer reason : String) (now : Nat) : Bool × HumanInterventionManager :=
  match m.interventions.lookup request_id with
  | none => (false, m)
  | some r =>
    let r1 := r.reject_assessment reviewer reason now
    (true, { m with interventions := updateStore m.interventions request_id r1 })

/-- `HumanInterventionManager.escalate_intervention`. -/
def HumanInterventionManager.escalate_intervention (m : HumanInterventionManager)
    (request_id escalation_reason : String) (now : Nat) : Bool × HumanInterventionManager :=
  match m.interventions.lookup request_id with
  | none => (false, m)
  | some r =>
    let r1 := r.escalate_intervention escalation_reason now
    (true, { m with interventions := updateStore m.interventions request_id r1 })

/-- C8: every mutating manager operation on an unknown request id returns
`False` and leaves the store untouched (modelled: returns the manager
unchanged), and raises nothing. -/
theorem C8_unknown_id_noop (m : HumanInterventionManager) (request_id s1 s2 : String)
    (now : Nat) (h : m.interventions.lookup request_id = none) :
    m.assign_intervention request_id s1 = (false, m)
    ∧ m.add_comment request_id s1 s2 now = (false, m)
    ∧ m.approve_assessment request_id s1 s2 now = (false, m)
    ∧ m.reject_assessment request_id s1 s2 now = (false, m)
    ∧ m.escalate_intervention request_id s1 now = (false, m) := by
  unfold HumanInterventionManager.assign_intervention HumanInterventionManager.add_comment
    HumanInterventionManager.approve_assessment HumanInterventionManager.reject_assessment
    HumanInterventionManager.escalate_intervention
  rw [h]
  exact ⟨rfl, rfl, rfl, rfl, rfl⟩

/-- Witness for C8: the empty manager and an arbitrary id. -/
theorem C8_unknown_id_noop_witness :
    (HumanInterventionManager.mk [] 0).interventions.lookup "INT-000001" = none
    ∧ ((HumanInterventionManager.mk [] 0).assign_intervention "INT-000001" "Dr. A"
        = (false, HumanInterventionManager.mk [] 0)
      ∧ (HumanInterventionManager.mk [] 0).add_comment "INT-000001" "Dr. A" "hello" 3
        = (false, HumanInterventionManager.mk [] 0)
      ∧ (HumanInterventionManager.mk [] 0).approve_assessment "INT-000001" "Dr. A" "ok" 3
        = (false, HumanInterventionManager.mk [] 0)
      ∧ (HumanInterventionManager.mk [] 0).reject_assessment "INT-000001" "Dr. A" "bad" 3
        = (false, HumanInterventionManager.mk [] 0)
      ∧ (HumanInterventionManager.mk [] 0).escalate_intervention "INT-000001" "why" 3
        = (false, HumanInterventionManager.mk [] 0)) :=
  ⟨rfl, C8_unknown_id_noop (HumanInterventionManager.mk [] 0) "INT-000001" "Dr. A" "hello" 3 rfl⟩

/-- C7: `flag_low_confidence_assessment` creates exactly one new request of
type `review`, priority `normal`, status `pending` when `score < threshold`,
and returns `None` leaving the manager unchanged otherwise. -/
theorem C7_flag_low_confidence (m : HumanInterventionManager) (assessment_id : String)
    (confidence_score threshold : Rat) (now : Nat) :
    (confidence_score < threshold →
      ∃ r, m.flag_low_confidence_assessment assessment_id confidence_score threshold now
          = (some ("INT-" ++ pad6 (m.intervention_counter + 1)),
             { interventions :=
                 m.interventions ++ [("INT-" ++ pad6 (m.intervention_counter + 1), r)],
               intervention_counter := m.intervention_counter + 1 })
        ∧ r.itype = "review" ∧ r.priority = "normal" ∧ r.status = "pending")
    ∧ (¬ confidence_score < threshold →
      m.flag_low_confidence_assessment assessment_id confidence_score threshold now
        = (none, m)) := by
  constructor
  · intro hlt
    refine ⟨{ assessment_id := assessment_id, itype := "review", status := "pending",
              priority := "normal", reason := low_confidence_reason, created_at := now,
              assigned_to := none, comments := [], decision := none, resolved_at := none },
            ?_, rfl, rfl, rfl⟩
    unfold HumanInterventionManager.flag_low_confidence_assessment
      HumanInterventionManager.create_intervention_request
    rw [if_pos hlt]
  · intro hge
    unfold HumanInterventionManager.flag_low_confidence_assessment
    rw [if_neg hge]

/-- Witness for C7 at the spec's example scores `0.65` / `0.80` against
threshold `0.75`. -/
theorem C7_flag_low_confidence_witness :
    ((65 / 100 : Rat) < 75 / 100 ∧ ¬ (80 / 100 : Rat) < 75 / 100)
    ∧ (∃ r, (HumanInterventionManager.mk [] 0).flag_low_confidence_assessment
          "ASSESS-1" (65 / 100) (75 / 100) 0
        = (some ("INT-" ++ pad6 1),
           { interventions := [("INT-" ++ pad6 1, r)], intervention_counter := 1 })
        ∧ r.itype = "review" ∧ r.priority = "normal" ∧ r.status = "pending")
    ∧ (HumanInterventionManager.mk [] 0).flag_low_confidence_assessment
        "ASSESS-1" (80 / 100) (75 / 100) 0 = (none, HumanInterventionManager.mk [] 0) := by
  have h1 : (65 / 100 : Rat) < 75 / 100 := by norm_num
  have h2 : ¬ (80 / 100 : Rat) < 75 / 100 := by norm_num
  exact ⟨⟨h1, h2⟩,
    (C7_flag_low_confidence (HumanInterventionManager.mk [] 0) "ASSESS-1"
      (65 / 100) (75 / 100) 0).1 h1,
    (C7_flag_low_confidence (HumanInterventionManager.mk [] 0) "ASSESS-1"
      (80 / 100) (75 / 100) 0).2 h2⟩

/-- The manager state holding the single request `INT-000001`, freshly
created. -/
def c3_m1 : HumanInterventionManager :=
  ((HumanInterventionManager.mk [] 0).create_intervention_request
    "ASSESS-1" "review" "needs review" "normal" 0).2

/-- `c3_m1` after `approve_assessment` at time 1 — a terminal request. -/
def c3_m2 : HumanInterventionManager :=
  (c3_m1.approve_assessment "INT-000001" "Dr. A" "" 1).2

/-- C3 fails on the code: the first approval makes the request terminal, yet
a second terminal call (`reject_assessment`) still returns `True` and
overwrites `status`, `decision` and `resolved_at` of the audit record. -/
theorem C3_terminal_call_overwrites :
    (c3_m1.approve_assessment "INT-000001" "Dr. A" "" 1).1 = true
    ∧ (c3_m2.interventions.lookup "INT-000001").map
        (fun r => (r.status, r.decision, r.resolved_at))
      = some ("approved", some "approved", some 1)
    ∧ (c3_m2.reject_assessment "INT-000001" "Dr. B" "changed my mind" 2).1 = true
    ∧ ((c3_m2.reject_assessment "INT-000001" "Dr. B" "changed my mind" 2).2.interventions.lookup
        "INT-000001").map (fun r => (r.status, r.decision, r.resolved_at))
      = some ("rejected", some "rejected", some 2) := by
  decide

/-- A freshly created intervention request record. -/
def c6_r0 : Intervention :=
  { assessment_id := "ASSESS-1", itype := "review", status := "pending", priority := "normal",
    reason := "check", created_at := 0, assigned_to := none, comments := [],
    decision := none, resolved_at := none }

/-- C6 fails on the code: escalating a previously approved request sets
`status = escalated` and `priority = urgent` but leaves `decision = approved`
non-null, breaking the claimed invariant. -/
theorem C6_escalated_keeps_decision :
    ((c6_r0.approve_assessment "Dr. A" "" 1).escalate_intervention "needs senior review" 2).status
      = "escalated"
    ∧ ((c6_r0.approve_assessment "Dr. A" "" 1).escalate_intervention "needs senior review" 2).priority
      = "urgent"
    ∧ ((c6_r0.approve_assessment "Dr. A" "" 1).escalate_intervention "needs senior review" 2).decision
      = some "approved" := by
  refine ⟨rfl, rfl, rfl⟩

/-! ### Review handler (`src/human_intervention/review_handler.py`) -/

/-- One entry of a review's `findings` list. -/
structure Finding where
  text : String
  severity : String
  timestamp : Nat
  deriving Repr, DecidableEq

/-- One entry of a review's `questions` list. -/
structure ReviewQuestion where
  text : String
  field : String
  timestamp : Nat
  deriving Repr, DecidableEq

/-- One entry of a review's `recommendations` list. -/
structure Recommendation where
  text : String
  action_type : String
  timestamp : Nat
  deriving Repr, DecidableEq

/-- The record stored in `ReviewHandler.reviews` (opaque `assessment_data`
and `created_at`, read by no claim, omitted). -/
structure Review where
  intervention_id : String
  reviewer : String
  findings : List Finding
  questions : List ReviewQuestion
  recommendations : List Recommendation
  status : String
  completed_at : Option Nat
  deriving Repr, DecidableEq

/-- The record built by `ReviewHandler.create_review`. -/
def create_review (intervention_id reviewer_name : String) : Review :=
  { intervention_id := intervention_id, reviewer := reviewer_name, findings := [],
    questions := [], recommendations := [], status := "in_progress", completed_at := none }

/-- `ReviewHandler.add_finding`, found-id path. -/
def Review.add_finding (rv : Review) (finding severity : String) (now : Nat) : Review :=
  { rv with findings := rv.findings ++ [⟨finding, severity, now⟩] }

/-- The summary dictionary built by `ReviewHandler.get_review_summary`
(`review_id`, echoed from the argument, omitted). -/
structure ReviewSummary where
  reviewer : String
  status : String
  total_findings : Nat
  critical_findings : Nat
  high_findings : Nat
  total_questions : Nat
  total_recommendations : Nat
  completed_at : Option Nat
  deriving Repr, DecidableEq

/-- `ReviewHandler.get_review_summary`, found-id path: `sum(1 for f in
findings if f["severity"] == s)` is `List.countP`. -/
def Review.get_review_summary (rv : Review) : ReviewSummary :=
  { reviewer := rv.reviewer, status := rv.status,
    total_findings := rv.findings.length,
    critical_findings := rv.findings.countP (fun f => f.severity == "critical"),
    high_findings := rv.findings.countP (fun f => f.severity == "high"),
    total_questions := rv.questions.length,
    total_recommendations := rv.recommendations.length,
    completed_at := rv.completed_at }

/-- One `add_finding` call. -/
structure FindingCall where
  text : String
  severity : String
  timestamp : Nat
  deriving Repr, DecidableEq

/-- A sequence of `add_finding` calls applied to one review. -/
def applyFindings (rv : Review) (calls : List FindingCall) : Review :=
  calls.foldl (fun acc c => acc.add_finding c.text c.severity c.timestamp) rv

theorem applyFindings_findings (calls : List FindingCall) (rv : Review) :
    (applyFindings rv calls).findings
      = rv.findings ++ calls.map (fun c => (⟨c.text, c.severity, c.timestamp⟩ : Finding)) := by
  induction calls generalizing rv with
  | nil => simp [applyFindings]
  | cons c cs ih =>
    simp only [applyFindings, List.foldl_cons]
    rw [show List.foldl (fun acc c => acc.add_finding c.text c.severity c.timestamp)
          (rv.add_finding c.text c.severity c.timestamp) cs
        = applyFindings (rv.add_finding c.text c.severity c.timestamp) cs from rfl, ih]
    simp [Review.add_finding]

/-- C10: after any sequence of `add_finding` calls on a fresh review, the
summary's `total_findings` is the number of calls and
`critical_findings` / `high_findings` count the calls with those literal
severities. -/
theorem C10_summary_counts (intervention_id reviewer : String) (calls : List FindingCall) :
    (applyFindings (create_review intervention_id reviewer) calls).get_review_summary.total_findings
      = calls.length
    ∧ (applyFindings (create_review intervention_id reviewer) calls).get_review_summary.critical_findings
      = calls.countP (fun c => c.severity == "critical")
    ∧ (applyFindings (create_review intervention_id reviewer) calls).get_review_summary.high_findings
      = calls.countP (fun c => c.severity == "high") := by
  refine ⟨?_, ?_, ?_⟩
  · simp [Review.get_review_summary, applyFindings_findings, create_review]
  · simp [Review.get_review_summary, applyFindings_findings, create_review, List.countP_map]
    rfl
  · simp [Review.get_review_summary, applyFindings_findings, create_review, List.countP_map]
    rfl

/-! ### Stage orchestrator (`src/agents/agno_orchestrator.py`) -/

/-- One symptom entry; the orchestrator reads only its `"name"` key. -/
structure Symptom where
  name : String
  deriving Repr, DecidableEq

/-- One diagnosis dict as read by the orchestrator (`.get("disease")`). -/
structure DiagnosisR where
  disease : Option String
  deriving Repr, DecidableEq

/-- Opaque payload of the Data stage, stored but never inspected. -/
structure MedicalData where
  payload : String
  deriving Repr, DecidableEq

/-- Opaque payload of the Reasoning stage. -/
structure ReasoningR where
  payload : String
  deriving Repr, DecidableEq

/-- Opaque payload of one treatment recommendation. -/
structure Treatment where
  payload : String
  deriving Repr, DecidableEq

/-- The Evaluation stage's dict; the orchestrator reads
`.get("quality_score", 0.0)`. -/
structure Evaluation where
  quality_score : Option Rat
  deriving Repr, DecidableEq

/-- The patient fields the orchestrator reads. -/
structure Patient where
  name : Option String
  allergies : List String
  medical_history : List String
  deriving Repr, DecidableEq

/-- The `patient_data` argument: either flat, or carrying a nested
`"patient"` key (distinguished by `"patient" in patient_data`). -/
structure PatientData where
  patient : Option Patient
  name : Option String
  allergies : List String
  medical_history : List String
  symptoms : List Symptom
  deriving Repr, DecidableEq

/-- `patient_data["patient"] if "patient" in patient_data else patient_data`
(shared by `_create_final_summary` and `_extract_warnings`). -/
def PatientData.info (pd : PatientData) : Patient :=
  match pd.patient with
  | some p => p
  | none => { name := pd.name, allergies := pd.allergies, medical_history := pd.medical_history }

/-- The final-summary dict. `probable_diagnoses` / `treatments` are `Option`s
whose `none` is Python `None`; `diagnostic_tests`, `next_steps`,
`safety_warnings` and `error` are `Option`s whose `none` marks a key some
paths leave absent. -/
structure Summary where
  patient_name : Option String
  assessment_date : Option Nat
  quality_score : Rat
  probable_diagnoses : Option (List DiagnosisR)
  treatments : Option (List Treatment)
  symptoms_analyzed : List String
  diagnostic_tests : Option (List String)
  next_steps : Option (List String)
  safety_warnings : Option (List String)
  error : Option String
  deriving Repr, DecidableEq

/-- The workflow dict built in `initialize_workflow` (the `"error"` key is
added only by the outer exception handler, unreachable under this
embedding's total stage capabilities, so it is omitted). -/
structure WorkflowState where
  patient : PatientData
  symptoms : List Symptom
  medical_data : Option MedicalData
  diagnoses : Option (List DiagnosisR)
  reasoning : Option ReasoningR
  treatments : Option (List Treatment)
  evaluation : Option Evaluation
  final_summary : Option Summary
  status : String
  deriving Repr, DecidableEq

/-- `OrchestratorAgent.initialize_workflow` (the name extraction there only
feeds logging). -/
def initialize_workflow (pd : PatientData) : WorkflowState :=
  { patient := pd, symptoms := pd.symptoms, medical_data := none, diagnoses := none,
    reasoning := none, treatments := none, evaluation := none, final_summary := none,
    status := "initialized" }

/-- Python truthiness of a value that is `None` or a list. -/
def truthyList {α : Type} : Option (List α) → Bool
  | none => false
  | some [] => false
  | some (_ :: _) => true

/-- Python truthiness of a value that is `None` or a string. -/
def truthyStr : Option String → Bool
  | none => false
  | some s => !(s == "")

/-- `OrchestratorAgent._extract_tests`: iterates `diagnoses[:2]`, appending
one test per truthy `disease`; slicing `None` raises `TypeError`. -/
def extract_tests (ws : WorkflowState) : Except String (List String) :=
  match ws.diagnoses with
  | none => Except.error "TypeError: NoneType object is not subscriptable"
  | some ds =>
    Except.ok (((ds.take 2).filter (fun d => truthyStr d.disease)).map
      (fun d => "Test for " ++ d.disease.getD ""))

/-- `OrchestratorAgent._generate_next_steps` (`None` is falsy; Python
interpolates a missing disease as the text `None`). -/
def generate_next_steps : Option (List DiagnosisR) → List String
  | some (top :: _) =>
      ["Confirm diagnosis: " ++ top.disease.getD "None",
       "Complete recommended diagnostic tests",
       "Schedule follow-up consultation",
       "Monitor symptoms"]
  | _ => []

/-- `", ".join(...)`. -/
def joinComma (l : List String) : String := String.intercalate ", " l

/-- `OrchestratorAgent._extract_warnings` (allergies and history are lists
here, so only the list branch of the isinstance checks applies). -/
def extract_warnings (pd : PatientData) : List String :=
  let p := pd.info
  (if !(p.allergies.isEmpty) then ["Allergies: " ++ joinComma p.allergies] else [])
    ++ (if !(p.medical_history.isEmpty) then
        ["Medical history: " ++ joinComma p.medical_history] else [])

/-- `OrchestratorAgent._create_final_summary`. The dict literal evaluates its
values in key order, so the `TypeError` from `_extract_tests` (when
`diagnoses` is `None`) fires before the `AttributeError` from
`workflow_state.get("evaluation", {}).get(...)` (when `evaluation` is
`None`: the `{}` default does not apply because the key exists holding
`None`). -/
def create_final_summary (ws : WorkflowState) (now : Nat) : Except String Summary :=
  match extract_tests ws with
  | Except.error e => Except.error e
  | Except.ok tests =>
    match ws.evaluation with
    | none => Except.error "AttributeError: NoneType object has no attribute get"
    | some ev =>
      Except.ok
        { patient_name := ws.patient.info.name,
          assessment_date := some now,
          symptoms_analyzed := ws.symptoms.map (fun s => s.name),
          probable_diagnoses :=
            some (if truthyList ws.diagnoses then (ws.diagnoses.getD []).take 3 else []),
          treatments := ws.treatments,
          diagnostic_tests := some tests,
          next_steps := some (generate_next_steps ws.diagnoses),
          safety_warnings := some (extract_warnings ws.patient),
          quality_score := ev.quality_score.getD 0,
          error := none }

/-- The `agents` dictionary of `coordinate_assessment`: an absent entry
skips the stage. Each present capability is a total Lean function, which
embeds the hypothesis that every present stage capability returns without
raising. -/
structure Agents where
  data_agent : Option (List String → MedicalData)
  diagnosis_agent : Option (List Symptom → Option MedicalData → PatientData → List DiagnosisR)
  reasoning_agent : Option (Option (List DiagnosisR) → List Symptom → ReasoningR)
  treatment_agent : Option (Option (List DiagnosisR) → PatientData → List Treatment)
  evaluation_agent : Option (WorkflowState → Evaluation)

/-- Steps 1–5 of `coordinate_assessment`: each present stage writes its one
field, reading the fields already present. -/
def run_stages (ws0 : WorkflowState) (ag : Agents) : WorkflowState :=
  let ws1 := match ag.data_agent with
    | some f => { ws0 with medical_data := some (f (ws0.symptoms.map (fun s => s.name))) }
    | none => ws0
  let ws2 := match ag.diagnosis_agent with
    | some f => { ws1 with diagnoses := some (f ws1.symptoms ws1.medical_data ws1.patient) }
    | none => ws1
  let ws3 := match ag.reasoning_agent with
    | some f => { ws2 with reasoning := some (f ws2.diagnoses ws2.symptoms) }
    | none => ws2
  let ws4 := match ag.treatment_agent with
    | some f => { ws3 with treatments := some (f ws3.diagnoses ws3.patient) }
    | none => ws3
  match ag.evaluation_agent with
  | some f => { ws4 with evaluation := some (f ws4) }
  | none => ws4

/-- The minimal summary installed when `_create_final_summary` returns a
falsy value. Note `workflow_state.get("diagnoses", [])`: the key always
exists, so a `None` value passes through instead of the `[]` default. -/
def minimal_fallback_summary (ws : WorkflowState) : Summary :=
  { patient_name := none, assessment_date := none, quality_score := 0,
    probable_diagnoses := ws.diagnoses,
    treatments := ws.treatments,
    symptoms_analyzed := ws.symptoms.map (fun s => s.name),
    diagnostic_tests := some [], next_steps := some [], safety_warnings := some [],
    error := none }

/-- The fallback summary installed when `_create_final_summary` raises; same
`.get("diagnoses", [])` pass-through, and the three derived-list keys are
absent. -/
def error_fallback_summary (ws : WorkflowState) (e : String) : Summary :=
  { patient_name := none, assessment_date := none, quality_score := 0,
    probable_diagnoses := ws.diagnoses,
    treatments := ws.treatments,
    symptoms_analyzed := ws.symptoms.map (fun s => s.name),
    diagnostic_tests := none, next_steps := none, safety_warnings := none,
    error := some e }

/-- Python truthiness of the dict `_create_final_summary` returns: a literal
with nine keys, hence always truthy. -/
def summary_truthy (_ : Summary) : Bool := true

/-- `OrchestratorAgent.coordinate_assessment`. The outer `try` catches only
stage-capability exceptions, which this embedding's total capabilities
exclude, so its `status = "error"` branch is unreachable; the inner `try`
around step 6 is the `Except` match. -/
def coordinate_assessment (ws0 : WorkflowState) (ag : Agents) (now : Nat) : WorkflowState :=
  let ws5 := run_stages ws0 ag
  let ws6 :=
    match create_final_summary ws5 now with
    | Except.ok s =>
      if summary_truthy s then { ws5 with final_summary := some s }
      else { ws5 with final_summary := some (minimal_fallback_summary ws5) }
    | Except.error e => { ws5 with final_summary := some (error_fallback_summary ws5 e) }
  { ws6 with status := "completed" }

/-- C4: whenever every present stage capability returns without raising
(guaranteed by the `Agents` embedding), the run reports `completed` with a
non-null `final_summary`; and if synthesis raises, the fallback summary built
from the already-known fields is the one installed. -/
theorem C4_completed_with_summary (ws0 : WorkflowState) (ag : Agents) (now : Nat) :
    (coordinate_assessment ws0 ag now).status = "completed"
    ∧ (coordinate_assessment ws0 ag now).final_summary ≠ none
    ∧ (∀ e, create_final_summary (run_stages ws0 ag) now = Except.error e →
        (coordinate_assessment ws0 ag now).final_summary
          = some (error_fallback_summary (run_stages ws0 ag) e)) := by
  unfold coordinate_assessment summary_truthy
  cases h : create_final_summary (run_stages ws0 ag) now with
  | ok s =>
    refine ⟨by simp [h], by simp [h], ?_⟩
    intro e he
    exact Except.noConfusion he
  | error e0 =>
    refine ⟨by simp [h], by simp [h], ?_⟩
    intro e he
    injection he with h1
    subst h1
    simp [h]

/-- A flat-shaped patient input with two symptoms. -/
def samplePatientData : PatientData :=
  { patient := none, name := some "John Doe", allergies := ["Penicillin"],
    medical_history := ["Hypertension"],
    symptoms := [⟨"fever"⟩, ⟨"cough"⟩] }

/-- The agents dictionary with every stage absent. -/
def emptyAgents : Agents :=
  { data_agent := none, diagnosis_agent := none, reasoning_agent := none,
    treatment_agent := none, evaluation_agent := none }

/-- Witness for C4 at a concrete run whose synthesis step raises. -/
theorem C4_completed_with_summary_witness :
    create_final_summary (run_stages (initialize_workflow samplePatientData) emptyAgents) 0
        = Except.error "TypeError: NoneType object is not subscriptable"
    ∧ (coordinate_assessment (initialize_workflow samplePatientData) emptyAgents 0).final_summary
        = some (error_fallback_summary
            (run_stages (initialize_workflow samplePatientData) emptyAgents)
            "TypeError: NoneType object is not subscriptable") :=
  ⟨rfl, (C4_completed_with_summary (initialize_workflow samplePatientData) emptyAgents 0).2.2
    "TypeError: NoneType object is not subscriptable" rfl⟩

/-- Agents where the diagnosis stage runs and produces zero diagnoses, the
evaluation stage runs, and all other stages are skipped. -/
def zeroDiagnosisAgents : Agents :=
  { data_agent := none,
    diagnosis_agent := some (fun _ _ _ => []),
    reasoning_agent := none,
    treatment_agent := none,
    evaluation_agent := some (fun _ => { quality_score := some (3 / 4) }) }

/-- C5 fails on the code in the unset case: with the diagnosis stage skipped
(`diagnoses` left `None`), synthesis raises, the error fallback is installed,
and its `probable_diagnoses` is the raw `None` — `.get("diagnoses", [])`
finds the key present holding `None` — not `[]`. No exception propagates and
the run reports completed. With a present diagnosis stage returning the empty
list, `probable_diagnoses` is `[]` as claimed. -/
theorem C5_unset_diagnoses_probable_none :
    (coordinate_assessment (initialize_workflow samplePatientData) emptyAgents 0).status
      = "completed"
    ∧ ((coordinate_assessment (initialize_workflow samplePatientData) emptyAgents 0).final_summary.map
        (fun s => s.probable_diagnoses)) = some none
    ∧ ((coordinate_assessment (initialize_workflow samplePatientData) zeroDiagnosisAgents 0).final_summary.map
        (fun s => s.probable_diagnoses)) = some (some []) :=
  ⟨rfl, rfl, rfl⟩

end Healthcare
